import Mathlib

/-!
Shallow embedding of rathole's `src/helper.rs` and proofs about it.

The module's pure logic (PROXY-protocol header encoding, host:port splitting,
credential construction) is translated directly; effectful operations (DNS
lookup, socket dialing, the select race with the shutdown broadcast) are made
explicit: the network is a parameter saying which socket operation fails, and
functions return the sequence of socket operations they attempted together
with their outcome, where an outcome distinguishes a returned error
(`anyhow::Result::Err`) from a Rust panic.
-/

namespace Rathole

/-- Result of running a helper: success, a returned error
(`anyhow::Result::Err` carrying its message), or a Rust panic. -/
inductive Outcome (α : Type) where
  | ok (v : α)
  | err (msg : String)
  | panicked (msg : String)
  deriving DecidableEq

/-- An IP address as in `std::net::IpAddr`: four IPv4 octets, or the sixteen
octets of an IPv6 address. -/
inductive IpAddr where
  | v4 (a b c d : Nat)
  | v6 (o : List Nat)
  deriving DecidableEq

/-- `IpAddr::is_ipv4`. -/
def IpAddr.is_ipv4 : IpAddr → Bool
  | .v4 _ _ _ _ => true
  | .v6 _ => false

/-- `octets().to_vec()`: the raw address bytes. -/
def IpAddr.octets : IpAddr → List Nat
  | .v4 a b c d => [a, b, c, d]
  | .v6 o => o

/-- `std::net::SocketAddr`: an IP address plus a 16-bit port. -/
structure SocketAddr where
  ip : IpAddr
  port : Nat
  deriving DecidableEq

/-- `u16::to_be_bytes` applied to a port: two big-endian bytes. -/
def u16be (p : Nat) : List Nat := [p / 256 % 256, p % 256]

/-- Lowercase hexadecimal of one 16-bit segment, without leading zeros, as
Rust's `{:x}` formatting (`Nat.toDigits 16` yields lowercase digits). -/
def hex16 (n : Nat) : String := String.mk (Nat.toDigits 16 n)

/-- `Ipv6Addr::segments`: the eight 16-bit segments from the 16 octets. -/
def segmentsOf : List Nat → List Nat
  | a :: b :: rest => (a * 256 + b) :: segmentsOf rest
  | _ => []

/-- Hex segments joined with ':', as `fmt_subslice` in Rust's `Ipv6Addr`
`Display` implementation. -/
def joinHexColon : List Nat → String
  | [] => ""
  | [s] => hex16 s
  | s :: rest => hex16 s ++ ":" ++ joinHexColon rest

/-- One step of the longest-zero-run scan in Rust's `Ipv6Addr` `Display`:
state is (longest span, current span, next index), spans as (start, length);
a strictly longer current span replaces the recorded longest, so the first
longest run wins ties. -/
def spanStep : ((Nat × Nat) × (Nat × Nat) × Nat) → Nat → ((Nat × Nat) × (Nat × Nat) × Nat)
  | ((ls, ll), (cs, cl), i), seg =>
    if seg = 0 then
      let c := if cl = 0 then (i, 1) else (cs, cl + 1)
      let l := if c.2 > ll then c else (ls, ll)
      (l, c, i + 1)
    else ((ls, ll), (0, 0), i + 1)

/-- The first longest run of zero segments, as (start, length). -/
def longestZeroSpan (segs : List Nat) : Nat × Nat :=
  (segs.foldl spanStep ((0, 0), (0, 0), 0)).1

/-- `Ipv4Addr` `Display`: dotted decimal. -/
def ipv4Display (a b c d : Nat) : String :=
  Nat.repr a ++ "." ++ Nat.repr b ++ "." ++ Nat.repr c ++ "." ++ Nat.repr d

/-- `Ipv6Addr` `Display`: "::" for the unspecified address, "::1" for
loopback, the `::ffff:a.b.c.d` form for IPv4-mapped addresses, otherwise hex
segments with the first longest zero run (of length at least two) compressed
to "::". -/
def ipv6Display (o : List Nat) : String :=
  let segs := segmentsOf o
  if segs = [0, 0, 0, 0, 0, 0, 0, 0] then "::"
  else if segs = [0, 0, 0, 0, 0, 0, 0, 1] then "::1"
  else
    match segs with
    | [0, 0, 0, 0, 0, 65535, g, h] =>
      "::ffff:" ++ ipv4Display (g / 256) (g % 256) (h / 256) (h % 256)
    | _ =>
      let z := longestZeroSpan segs
      if z.2 > 1 then
        joinHexColon (segs.take z.1) ++ "::" ++ joinHexColon (segs.drop (z.1 + z.2))
      else joinHexColon segs

/-- Rust `Display` for `IpAddr`. -/
def ipDisplay : IpAddr → String
  | .v4 a b c d => ipv4Display a b c d
  | .v6 o => ipv6Display o

/-- `String::into_bytes`: UTF-8 bytes. Every string built by the encoder is
ASCII, where bytes coincide with code points. -/
def asciiBytes (s : String) : List Nat := s.data.map Char.toNat

/-- `generate_proxy_protocol_header` (helper.rs:168-222); the two
`SocketAddr`s stand for the `local_addr()` / `peer_addr()` of the stream,
whose retrieval is assumed to have succeeded. -/
def generate_proxy_protocol_header (local_addr remote_addr : SocketAddr)
    (proxy_protocol : String) : Except String (List Nat) :=
  if proxy_protocol = "v1" then
    let proto := if local_addr.ip.is_ipv4 then "TCP4" else "TCP6"
    let header := "PROXY " ++ proto ++ " " ++ ipDisplay remote_addr.ip ++ " "
      ++ ipDisplay local_addr.ip ++ " " ++ Nat.repr remote_addr.port ++ " "
      ++ Nat.repr local_addr.port ++ "\r\n"
    Except.ok (asciiBytes header)
  else if proxy_protocol = "v2" then
    let v2sig : List Nat := [0x0D, 0x0A, 0x0D, 0x0A, 0x00, 0x0D, 0x0A, 0x51, 0x55, 0x49, 0x54, 0x0A]
    let ver_cmd : List Nat := [0x21]
    let proto : List Nat := if local_addr.ip.is_ipv4 then [0x11] else [0x21]
    let addrs_length : List Nat := if local_addr.ip.is_ipv4 then [0, 12] else [0, 36]
    let src_addr := remote_addr.ip.octets
    let dst_addr := local_addr.ip.octets
    Except.ok (v2sig ++ ver_cmd ++ proto ++ addrs_length ++ src_addr ++ dst_addr
      ++ u16be remote_addr.port ++ u16be local_addr.port)
  else
    Except.error ("Unknown proxy protocol " ++ proxy_protocol)

/-- C2: for IPv4 connections, the v2 header is exactly the 12-byte signature,
0x21, 0x11, the big-endian length 0x000C, remote then local address octets,
and remote then local port in big-endian — 28 bytes in all. -/
theorem v2_ipv4_header (la lb lc ld ra rb rc rd lp rp : Nat)
    (hlp : lp < 65536) (hrp : rp < 65536) :
    ∃ bs, generate_proxy_protocol_header ⟨IpAddr.v4 la lb lc ld, lp⟩
        ⟨IpAddr.v4 ra rb rc rd, rp⟩ "v2" = Except.ok bs
      ∧ bs = [0x0D, 0x0A, 0x0D, 0x0A, 0x00, 0x0D, 0x0A, 0x51, 0x55, 0x49, 0x54, 0x0A]
          ++ [0x21] ++ [0x11] ++ [0x00, 0x0C] ++ [ra, rb, rc, rd] ++ [la, lb, lc, ld]
          ++ [rp / 256, rp % 256] ++ [lp / 256, lp % 256]
      ∧ bs.length = 28 := by
  refine ⟨_, rfl, ?_, ?_⟩
  · simp only [generate_proxy_protocol_header, IpAddr.is_ipv4, IpAddr.octets, u16be,
      if_true, reduceIte]
    have h1 : rp / 256 % 256 = rp / 256 := Nat.mod_eq_of_lt (by omega)
    have h2 : lp / 256 % 256 = lp / 256 := Nat.mod_eq_of_lt (by omega)
    simp [h1, h2]
  · simp [generate_proxy_protocol_header, IpAddr.is_ipv4, IpAddr.octets, u16be]

/-- C2 witness at a concrete IPv4 connection. -/
theorem v2_ipv4_header_witness :
    ∃ bs, generate_proxy_protocol_header ⟨IpAddr.v4 192 168 0 1, 8080⟩
        ⟨IpAddr.v4 10 0 0 2, 443⟩ "v2" = Except.ok bs
      ∧ bs = [0x0D, 0x0A, 0x0D, 0x0A, 0x00, 0x0D, 0x0A, 0x51, 0x55, 0x49, 0x54, 0x0A]
          ++ [0x21] ++ [0x11] ++ [0x00, 0x0C] ++ [10, 0, 0, 2] ++ [192, 168, 0, 1]
          ++ [443 / 256, 443 % 256] ++ [8080 / 256, 8080 % 256]
      ∧ bs.length = 28 :=
  v2_ipv4_header 192 168 0 1 10 0 0 2 8080 443 (by decide) (by decide)

/-- C3: the v1 header is exactly the ASCII bytes of
"PROXY <proto> <remoteIP> <localIP> <remotePort> <localPort>\r\n",
and the protocol token is "TCP4" exactly when the local address is IPv4. -/
theorem v1_header (l r : SocketAddr) :
    generate_proxy_protocol_header l r "v1"
      = Except.ok (asciiBytes ("PROXY " ++ (if l.ip.is_ipv4 then "TCP4" else "TCP6")
          ++ " " ++ ipDisplay r.ip ++ " " ++ ipDisplay l.ip ++ " "
          ++ Nat.repr r.port ++ " " ++ Nat.repr l.port ++ "\r\n"))
    ∧ ((if l.ip.is_ipv4 then "TCP4" else "TCP6") = "TCP4" ↔ l.ip.is_ipv4 = true) := by
  constructor
  · rfl
  · cases h : l.ip.is_ipv4 <;> simp

/-- C5: any version selector other than "v1" and "v2" yields an error and no
header bytes. -/
theorem unknown_version_error (l r : SocketAddr) (v : String)
    (h1 : v ≠ "v1") (h2 : v ≠ "v2") :
    generate_proxy_protocol_header l r v
      = Except.error ("Unknown proxy protocol " ++ v) := by
  simp only [generate_proxy_protocol_header, if_neg h1, if_neg h2]

/-- C5 witness at version "v3". -/
theorem unknown_version_error_witness :
    generate_proxy_protocol_header ⟨IpAddr.v4 127 0 0 1, 80⟩
        ⟨IpAddr.v4 127 0 0 2, 81⟩ "v3"
      = Except.error ("Unknown proxy protocol " ++ "v3") :=
  unknown_version_error _ _ "v3" (by decide) (by decide)

/-- C4: for IPv6 connections, the v2 header carries family/transport byte
0x21 (the same value as the version/command byte), big-endian length 36, the
16 remote then 16 local address octets, and is 52 bytes in all. -/
theorem v2_ipv6_header (lo ro : List Nat) (lp rp : Nat)
    (hlo : lo.length = 16) (hro : ro.length = 16)
    (hlp : lp < 65536) (hrp : rp < 65536) :
    ∃ bs, generate_proxy_protocol_header ⟨IpAddr.v6 lo, lp⟩ ⟨IpAddr.v6 ro, rp⟩ "v2"
        = Except.ok bs
      ∧ bs = [0x0D, 0x0A, 0x0D, 0x0A, 0x00, 0x0D, 0x0A, 0x51, 0x55, 0x49, 0x54, 0x0A]
          ++ [0x21] ++ [0x21] ++ [0x00, 0x24] ++ ro ++ lo
          ++ [rp / 256, rp % 256] ++ [lp / 256, lp % 256]
      ∧ bs.length = 52 := by
  refine ⟨_, rfl, ?_, ?_⟩
  · simp only [generate_proxy_protocol_header, IpAddr.is_ipv4, IpAddr.octets, u16be,
      reduceIte]
    have h1 : rp / 256 % 256 = rp / 256 := Nat.mod_eq_of_lt (by omega)
    have h2 : lp / 256 % 256 = lp / 256 := Nat.mod_eq_of_lt (by omega)
    simp [h1, h2]
  · simp [generate_proxy_protocol_header, IpAddr.is_ipv4, IpAddr.octets, u16be,
      hlo, hro]

/-- C4 witness at a concrete IPv6 connection. -/
theorem v2_ipv6_header_witness :
    ∃ bs, generate_proxy_protocol_header
        ⟨IpAddr.v6 [0x20, 0x01, 0x0d, 0xb8, 0, 0, 0, 0, 0, 0, 0, 0, 0, 0, 0, 1], 8080⟩
        ⟨IpAddr.v6 [0x20, 0x01, 0x0d, 0xb8, 0, 0, 0, 0, 0, 0, 0, 0, 0, 0, 0, 2], 443⟩
        "v2" = Except.ok bs
      ∧ bs = [0x0D, 0x0A, 0x0D, 0x0A, 0x00, 0x0D, 0x0A, 0x51, 0x55, 0x49, 0x54, 0x0A]
          ++ [0x21] ++ [0x21] ++ [0x00, 0x24]
          ++ [0x20, 0x01, 0x0d, 0xb8, 0, 0, 0, 0, 0, 0, 0, 0, 0, 0, 0, 2]
          ++ [0x20, 0x01, 0x0d, 0xb8, 0, 0, 0, 0, 0, 0, 0, 0, 0, 0, 0, 1]
          ++ [443 / 256, 443 % 256] ++ [8080 / 256, 8080 % 256]
      ∧ bs.length = 52 :=
  v2_ipv6_header _ _ 8080 443 (by decide) (by decide) (by decide) (by decide)

/-- `str::rfind` specialised to one character on a character list: the index
of the last occurrence. -/
def rfind (c : Char) : List Char → Option Nat
  | [] => none
  | x :: xs =>
    match rfind c xs with
    | some i => some (i + 1)
    | none => if x = c then some 0 else none

/-- `str::parse::<u16>`: an optional leading '+', then one or more ASCII
digits whose value fits in 16 bits; anything else is a parse error. -/
def parseU16 (s : List Char) : Option Nat :=
  let t := match s with
    | '+' :: rest => rest
    | other => other
  if t.isEmpty then none
  else if t.all Char.isDigit then
    let v := t.foldl (fun acc c => acc * 10 + (c.toNat - 48)) 0
    if v ≤ 65535 then some v else none
  else none

/-- `host_port_pair` (helper.rs:61-64): `rfind(':')` panics via `expect`
when there is no colon; the suffix is parsed as a `u16`, a failure being
returned as an error through `?`. -/
def host_port_pair (s : List Char) : Outcome (List Char × Nat) :=
  match rfind ':' s with
  | none => Outcome.panicked "missing semicolon"
  | some i =>
    match parseU16 (s.drop (i + 1)) with
    | none => Outcome.err "invalid digit found in string"
    | some p => Outcome.ok (s.take i, p)

/-- `rfind` returns `none` exactly when the character does not occur. -/
theorem rfind_eq_none_iff (c : Char) (s : List Char) :
    rfind c s = none ↔ c ∉ s := by
  induction s with
  | nil => simp [rfind]
  | cons x xs ih =>
    cases h : rfind c xs with
    | some i =>
      have hmem : c ∈ xs := by
        by_contra hc
        rw [ih.mpr hc] at h
        exact Option.noConfusion h
      simp only [rfind, h]
      exact iff_of_false (by simp) fun hcon => hcon (List.mem_cons_of_mem x hmem)
    | none =>
      have hmem : c ∉ xs := ih.mp h
      simp only [rfind, h, List.mem_cons]
      by_cases hx : x = c
      · rw [if_pos hx]
        exact iff_of_false (by simp) fun hcon => hcon (Or.inl hx.symm)
      · rw [if_neg hx]
        exact iff_of_true rfl (by
          intro hcon
          rcases hcon with hcx | hcx
          · exact hx hcx.symm
          · exact hmem hcx)

/-- If position `i` holds the character and no later position does, `rfind`
returns `i`. -/
theorem rfind_last (c : Char) (s : List Char) (i : Nat)
    (hi : s.get? i = some c) (h : c ∉ s.drop (i + 1)) :
    rfind c s = some i := by
  induction s generalizing i with
  | nil => simp at hi
  | cons x xs ih =>
    cases i with
    | zero =>
      simp only [List.get?] at hi
      have hx : x = c := Option.some.inj hi
      have hnone : rfind c xs = none := (rfind_eq_none_iff c xs).mpr (by simpa using h)
      simp [rfind, hnone, hx]
    | succ j =>
      have hi' : xs.get? j = some c := hi
      have h' : c ∉ xs.drop (j + 1) := by simpa using h
      simp [rfind, ih j hi' h']

/-- C6: for any string, `host_port_pair` splits at the LAST colon — if
position `i` holds a colon, no later position does, and the suffix parses as
a 16-bit port `p`, the result is the prefix before `i` paired with `p`. -/
theorem host_port_pair_last_colon (s : List Char) (i p : Nat)
    (hi : s.get? i = some ':') (hlast : ':' ∉ s.drop (i + 1))
    (hp : parseU16 (s.drop (i + 1)) = some p) :
    host_port_pair s = Outcome.ok (s.take i, p) := by
  have hf := rfind_last ':' s i hi hlast
  simp [host_port_pair, hf, hp]

/-- C6 witness: the two examples from the spec, a hostname and a bracket-less
IPv6 literal, both split at the last colon. -/
theorem host_port_pair_last_colon_witness :
    host_port_pair "example.com:443".data = Outcome.ok ("example.com".data, 443)
    ∧ host_port_pair "2001:db8::1:443".data = Outcome.ok ("2001:db8::1".data, 443) :=
  ⟨host_port_pair_last_colon "example.com:443".data 11 443
      (by decide) (by decide) (by decide),
    host_port_pair_last_colon "2001:db8::1:443".data 11 443
      (by decide) (by decide) (by decide)⟩

/-- C10: with no colon in the input, `host_port_pair` panics with
"missing semicolon"; an `err` result can arise only from a string that does
have a colon and whose post-colon suffix fails to parse as a 16-bit port. -/
theorem host_port_pair_no_colon_panics (s : List Char) :
    (':' ∉ s → host_port_pair s = Outcome.panicked "missing semicolon")
    ∧ (∀ m, host_port_pair s = Outcome.err m →
        ∃ i, rfind ':' s = some i ∧ parseU16 (s.drop (i + 1)) = none) := by
  constructor
  · intro h
    unfold host_port_pair
    rw [(rfind_eq_none_iff ':' s).mpr h]
  · intro m hm
    cases hf : rfind ':' s with
    | none =>
      have : host_port_pair s = Outcome.panicked "missing semicolon" := by
        simp [host_port_pair, hf]
      rw [this] at hm
      exact Outcome.noConfusion hm
    | some i =>
      refine ⟨i, rfl, ?_⟩
      cases hp : parseU16 (s.drop (i + 1)) with
      | none => rfl
      | some p => simp [host_port_pair, hf, hp] at hm

/-- C10 witness: a colon-less input panics, and an input whose port text is
not numeric yields an `err` whose colon/parse decomposition exists. -/
theorem host_port_pair_no_colon_panics_witness :
    host_port_pair "localhost".data = Outcome.panicked "missing semicolon"
    ∧ ∃ i, rfind ':' "host:x".data = some i
        ∧ parseU16 ("host:x".data.drop (i + 1)) = none :=
  ⟨(host_port_pair_no_colon_panics "localhost".data).1 (by decide),
    (host_port_pair_no_colon_panics "host:x".data).2
      "invalid digit found in string" (by decide)⟩

/-- Modelled from the spec: `crate::transport::AddrMaybeCached` (the Endpoint
Address of §3) is not under `src/`; it is the textual `host:port` plus an
optional cached resolved socket address. -/
structure AddrMaybeCached where
  addr : List Char
  socket_addr : Option SocketAddr

/-- `url::Url` restricted to the accessors `tcp_connect_with_proxy` uses:
`scheme()`, `host_str()`, `port()`, `username()` (empty when absent) and
`password()`. -/
structure Url where
  scheme : String
  host : Option String
  port : Option Nat
  username : String
  password : Option String

/-- `async_socks5::Auth`. -/
structure Auth where
  username : String
  password : String
  deriving DecidableEq

/-- The socket operations `tcp_connect_with_proxy` can attempt. -/
inductive IOAction where
  | tcpConnect (host : String) (port : Nat)
  | tcpConnectAddr (a : SocketAddr)
  | tcpConnectText (a : List Char)
  | socks5Connect (host : List Char) (port : Nat) (auth : Option Auth)
  | httpConnect (host : List Char) (port : Nat)
  | httpConnectBasicAuth (host : List Char) (port : Nat) (user pass : String)
  deriving DecidableEq

/-- The credential construction in `tcp_connect_with_proxy`
(helper.rs:94-101): built exactly when the username is non-empty or a
password is present. -/
def buildAuth (url : Url) : Option Auth :=
  if url.username ≠ "" ∨ url.password.isSome then
    some ⟨url.username, url.password.getD ""⟩
  else none

/-- `tcp_connect_with_proxy` (helper.rs:82-131) with the network made
explicit: `net` says whether each attempted socket operation fails (`some`
error) or succeeds (`none`); the result pairs the sequence of socket
operations attempted, in order, with the outcome. The proxy host and port
are read with `expect`, which panics when absent; an unknown scheme panics
after the proxy has been dialed. -/
def tcp_connect_with_proxy (net : IOAction → Option String)
    (addr : AddrMaybeCached) (proxy : Option Url) :
    List IOAction × Outcome Unit :=
  match proxy with
  | some url =>
    match url.host with
    | none => ([], Outcome.panicked "proxy url should have host field")
    | some h =>
      match url.port with
      | none => ([], Outcome.panicked "proxy url should have port field")
      | some p =>
        let dial := IOAction.tcpConnect h p
        match net dial with
        | some e => ([dial], Outcome.err e)
        | none =>
          let auth := buildAuth url
          if url.scheme = "socks5" then
            match host_port_pair addr.addr with
            | .panicked m => ([dial], Outcome.panicked m)
            | .err m => ([dial], Outcome.err m)
            | .ok (host, port) =>
              let hs := IOAction.socks5Connect host port auth
              match net hs with
              | some e => ([dial, hs], Outcome.err e)
              | none => ([dial, hs], Outcome.ok ())
          else if url.scheme = "http" then
            match host_port_pair addr.addr with
            | .panicked m => ([dial], Outcome.panicked m)
            | .err m => ([dial], Outcome.err m)
            | .ok (host, port) =>
              match auth with
              | some a =>
                let hs := IOAction.httpConnectBasicAuth host port a.username a.password
                match net hs with
                | some e => ([dial, hs], Outcome.err e)
                | none => ([dial, hs], Outcome.ok ())
              | none =>
                let hs := IOAction.httpConnect host port
                match net hs with
                | some e => ([dial, hs], Outcome.err e)
                | none => ([dial, hs], Outcome.ok ())
          else ([dial], Outcome.panicked "unknown proxy scheme")
  | none =>
    match addr.socket_addr with
    | some sa =>
      let dial := IOAction.tcpConnectAddr sa
      match net dial with
      | some e => ([dial], Outcome.err e)
      | none => ([dial], Outcome.ok ())
    | none =>
      let dial := IOAction.tcpConnectText addr.addr
      match net dial with
      | some e => ([dial], Outcome.err e)
      | none => ([dial], Outcome.ok ())

/-- A network in which every socket operation succeeds. -/
def netOk : IOAction → Option String := fun _ => none

/-- A concrete endpoint address. -/
def exAddr : AddrMaybeCached := ⟨"example.com:443".data, none⟩

/-- A concrete proxy URL with the unsupported scheme "ftp". -/
def ftpProxy : Url := ⟨"ftp", some "proxy.local", some 21, "", none⟩

/-- C1 counterexample: with an "ftp" proxy the code first dials the proxy —
socket I/O IS attempted — and then panics with "unknown proxy scheme"
instead of returning an error value. -/
theorem ftp_scheme_attempts_io_then_panics :
    tcp_connect_with_proxy netOk exAddr (some ftpProxy)
      = ([IOAction.tcpConnect "proxy.local" 21], Outcome.panicked "unknown proxy scheme")
    ∧ (tcp_connect_with_proxy netOk exAddr (some ftpProxy)).1 ≠ [] := by
  constructor
  · rfl
  · decide

/-- C1 amended: for every proxy whose scheme is neither "socks5" nor "http",
the proxy host:port is dialed first, and when that dial succeeds the call
panics with "unknown proxy scheme" rather than returning a typed error. -/
theorem unknown_scheme_dials_then_panics (net : IOAction → Option String)
    (addr : AddrMaybeCached) (url : Url) (h : String) (p : Nat)
    (hh : url.host = some h) (hp : url.port = some p)
    (hs1 : url.scheme ≠ "socks5") (hs2 : url.scheme ≠ "http")
    (hnet : net (IOAction.tcpConnect h p) = none) :
    tcp_connect_with_proxy net addr (some url)
      = ([IOAction.tcpConnect h p], Outcome.panicked "unknown proxy scheme") := by
  simp [tcp_connect_with_proxy, hh, hp, hnet, hs1, hs2]

/-- C1 amended witness at the concrete "ftp" proxy. -/
theorem unknown_scheme_dials_then_panics_witness :
    tcp_connect_with_proxy netOk exAddr (some ftpProxy)
      = ([IOAction.tcpConnect "proxy.local" 21], Outcome.panicked "unknown proxy scheme") :=
  unknown_scheme_dials_then_panics netOk exAddr ftpProxy "proxy.local" 21 rfl rfl
    (by decide) (by decide) rfl

/-- C8: a credential is built exactly when the username is non-empty or a
password is present, and with scheme "http" the CONNECT action carries Basic
auth exactly when such a credential exists. -/
theorem http_auth_exactly_when_credentials (net : IOAction → Option String)
    (addr : AddrMaybeCached) (url : Url) (h : String) (p : Nat)
    (host : List Char) (port : Nat)
    (hh : url.host = some h) (hp : url.port = some p)
    (hs : url.scheme = "http")
    (hnet : net (IOAction.tcpConnect h p) = none)
    (hsplit : host_port_pair addr.addr = Outcome.ok (host, port)) :
    ((buildAuth url).isSome ↔ (url.username ≠ "" ∨ url.password.isSome))
    ∧ (tcp_connect_with_proxy net addr (some url)).1
        = [IOAction.tcpConnect h p,
            match buildAuth url with
            | some a => IOAction.httpConnectBasicAuth host port a.username a.password
            | none => IOAction.httpConnect host port] := by
  have hs1 : url.scheme ≠ "socks5" := by rw [hs]; decide
  constructor
  · unfold buildAuth
    by_cases hc : url.username ≠ "" ∨ url.password.isSome
    · rw [if_pos hc]
      simp [hc]
    · rw [if_neg hc]
      simp [hc]
  · cases ha : buildAuth url with
    | some a =>
      cases hn : net (IOAction.httpConnectBasicAuth host port a.username a.password) with
      | some e => simp [tcp_connect_with_proxy, hh, hp, hnet, hs1, hs, hsplit, ha, hn]
      | none => simp [tcp_connect_with_proxy, hh, hp, hnet, hs1, hs, hsplit, ha, hn]
    | none =>
      cases hn : net (IOAction.httpConnect host port) with
      | some e => simp [tcp_connect_with_proxy, hh, hp, hnet, hs1, hs, hsplit, ha, hn]
      | none => simp [tcp_connect_with_proxy, hh, hp, hnet, hs1, hs, hsplit, ha, hn]

/-- A concrete http proxy URL carrying credentials. -/
def httpProxy : Url := ⟨"http", some "proxy.local", some 8080, "user", some "pw"⟩

/-- C8 witness at a concrete http proxy with credentials. -/
theorem http_auth_exactly_when_credentials_witness :
    ((buildAuth httpProxy).isSome ↔ (httpProxy.username ≠ "" ∨ httpProxy.password.isSome))
    ∧ (tcp_connect_with_proxy netOk exAddr (some httpProxy)).1
        = [IOAction.tcpConnect "proxy.local" 8080,
            match buildAuth httpProxy with
            | some a => IOAction.httpConnectBasicAuth "example.com".data 443 a.username a.password
            | none => IOAction.httpConnect "example.com".data 443] :=
  http_auth_exactly_when_credentials netOk exAddr httpProxy "proxy.local" 8080
    "example.com".data 443 rfl rfl rfl rfl (by decide)

/-- One poll of a future: ready with a value, or pending. -/
inductive Poll (α : Type) where
  | ready (v : α)
  | pending

/-- What a run of the select race produced: the value of the winning branch,
and whether the retry operation was ever invoked. -/
structure RaceOutcome (I : Type) where
  result : Except String I
  operationInvoked : Bool

/-- `retry_notify_with_deadline` (helper.rs:134-155), whose body is a
`tokio::select!` racing `backoff::future::retry_notify` against
`deadline.recv()`. The select macro first constructs both branch futures —
futures are lazy, so constructing the retry future does not yet invoke the
operation — and then polls the branches in a random order, modelled by
`pollDeadlineFirst`. `deadlineFired` says whether the shutdown broadcast
already has a pending message when the call starts, in which case the
deadline branch completes on its first poll; `retryFirstPoll` is the result
of the first poll of the retry future, which invokes the operation once; and
`retryResult` abstracts the eventual value of the whole backoff loop in the
executions where the deadline never fires during the call. -/
def retry_notify_with_deadline (I : Type) (deadlineFired pollDeadlineFirst : Bool)
    (retryFirstPoll : Poll (Except String I)) (retryResult : Except String I) :
    RaceOutcome I :=
  if deadlineFired then
    if pollDeadlineFirst then ⟨Except.error "shutdown", false⟩
    else
      match retryFirstPoll with
      | .ready v => ⟨v, true⟩
      | .pending => ⟨Except.error "shutdown", true⟩
  else ⟨retryResult, true⟩

/-- C7 counterexample: the signal has fired before the call, yet on the run
where select polls the retry branch first and the operation completes on its
first poll, the call returns the operation's value — not ShutdownError — and
the operation was invoked. -/
theorem retry_deadline_fired_counterexample :
    ¬ ((retry_notify_with_deadline Nat true false (Poll.ready (Except.ok 0))
          (Except.ok 0)).result = Except.error "shutdown"
      ∧ (retry_notify_with_deadline Nat true false (Poll.ready (Except.ok 0))
          (Except.ok 0)).operationInvoked = false) := by
  intro hcon
  have h1 := hcon.1
  simp [retry_notify_with_deadline] at h1

/-- C7 amended: when the signal has fired before the call, polling the
deadline branch first returns ShutdownError with the operation never
invoked; when the retry branch is polled first but its first poll is
pending, the call still returns ShutdownError, though the operation has
been invoked once. -/
theorem retry_deadline_fired_behaviour (I : Type) (rp : Poll (Except String I))
    (rr rr' : Except String I) :
    ((retry_notify_with_deadline I true true rp rr).result = Except.error "shutdown"
      ∧ (retry_notify_with_deadline I true true rp rr).operationInvoked = false)
    ∧ ((retry_notify_with_deadline I true false Poll.pending rr').result
          = Except.error "shutdown"
      ∧ (retry_notify_with_deadline I true false Poll.pending
          rr').operationInvoked = true) := by
  refine ⟨⟨rfl, rfl⟩, rfl, rfl⟩

/-- `to_socket_addr` (helper.rs:54-59): the DNS lookup is abstracted as its
result, either an error or the candidate list; the first candidate is
returned, an empty list failing with the lookup error message. -/
def to_socket_addr (lookup : Except String (List SocketAddr)) :
    Except String SocketAddr :=
  match lookup with
  | .error e => .error e
  | .ok l =>
    match l.head? with
    | some a => .ok a
    | none => .error "Failed to lookup the host"

/-- C9: the resolver returns the first candidate of the lookup, and fails
when the lookup yields no candidates or itself errors. -/
theorem to_socket_addr_first_candidate (a : SocketAddr) (rest : List SocketAddr)
    (e : String) :
    to_socket_addr (Except.ok (a :: rest)) = Except.ok a
    ∧ to_socket_addr (Except.ok []) = Except.error "Failed to lookup the host"
    ∧ to_socket_addr (Except.error e) = Except.error e :=
  ⟨rfl, rfl, rfl⟩

end Rathole
